import Mathlib

/-!
Shallow embedding of the Itera proxy backend (src/backend/server.js) and of the
client request coordinator (the React App component bundled in the same file),
with proofs of the specified properties of the caching, rate-limiting,
validation and cancellation logic.

JavaScript numbers are modelled as rationals; the values `nan` and `inf` stand
for the non-finite numbers, so `Number.isFinite` holds exactly of `num`.
Fallible upstream calls are modelled by an explicit outcome value, and each
handler reports how many upstream attempts it performed.
-/

/-- A JSON / JavaScript value, as far as the handlers inspect one. -/
inductive JVal : Type where
  | undef : JVal
  | null : JVal
  | bool (b : Bool) : JVal
  | num (q : ℚ) : JVal
  | nan : JVal
  | inf : JVal
  | str (s : String) : JVal
  | arr (xs : List JVal) : JVal
  | obj (fields : List (String × JVal)) : JVal

/-- JS truthiness, used by the handlers through `||` and `!`. -/
def JVal.truthy : JVal → Bool
  | .undef => false
  | .null => false
  | .bool b => b
  | .num q => decide (q ≠ 0)
  | .nan => false
  | .inf => true
  | .str s => decide (s ≠ "")
  | .arr _ => true
  | .obj _ => true

/-- The `validPoint` predicate of POST /api/route: `Array.isArray(p) &&
p.length === 2 && Number.isFinite(p[0]) && Number.isFinite(p[1])`.  A value
satisfies that conjunction exactly when it is a two-element array of finite
numbers. -/
def validPoint : JVal → Bool
  | .arr [.num _, .num _] => true
  | _ => false

/-- The two finite coordinates of a value passing `validPoint`, `none`
otherwise.  Used where the handlers read `p[0]` and `p[1]` after the check. -/
def finitePair : JVal → Option (ℚ × ℚ)
  | .arr [.num a, .num b] => some (a, b)
  | _ => none

/-- JS whitespace recognised by `String.prototype.trim` (the ASCII part;
exotic Unicode space code points are elided). -/
def isJsSpace (c : Char) : Bool :=
  c = ' ' || c = '\t' || c = '\n' || c = '\r' || c = '\x0b' || c = '\x0c'

/-- `String.prototype.trim`: strip leading and trailing whitespace. -/
def jsTrim (s : String) : String :=
  ⟨((s.data.dropWhile isJsSpace).reverse.dropWhile isJsSpace).reverse⟩

/-- `String.prototype.toLowerCase` (on the characters `Char.toLower` covers). -/
def jsToLower (s : String) : String :=
  ⟨s.data.map Char.toLower⟩

/-- Numerator of `q` rounded to the nearest thousandth (half away from the
floor), the rounding `Number.prototype.toFixed(3)` performs: this is
`round (q * 1000)` computed on the reduced fraction. -/
def milli (q : ℚ) : Int := Int.fdiv (2000 * q.num + q.den) (2 * q.den)

/-- Left-pad a three-digit fractional part with zeros. -/
def pad3 (n : Nat) : String :=
  if n < 10 then "00" ++ toString n
  else if n < 100 then "0" ++ toString n
  else toString n

/-- Decimal rendering of `q` with exactly three digits after the point,
modelling `q.toFixed(3)` in the cache-key construction. -/
def toFixed3 (q : ℚ) : String :=
  let n := milli q
  (if n < 0 then "-" else "") ++ toString (n.natAbs / 1000) ++ "." ++ pad3 (n.natAbs % 1000)

/-- A reduced place suggestion, the element shape returned by
POST /api/suggestions. -/
structure Suggestion where
  id : String
  place_name : String
  center : JVal

/-- An upstream geocoding feature: the handler reads `id`, `place_name` and
`center`; every other upstream field is collected in `rest` and dropped by the
reduction. -/
structure UpFeature where
  id : String
  place_name : String
  center : JVal
  rest : List (String × JVal)

/-- The mapping `f => ({ id: f.id, place_name: f.place_name, center: f.center })`
applied to each upstream feature. -/
def reduceFeature (f : UpFeature) : Suggestion :=
  { id := f.id, place_name := f.place_name, center := f.center }

/-- One entry of the suggestion cache: `key -> { exp, data }`. -/
structure CacheEntry where
  exp : Nat
  data : List Suggestion

/-- The suggestion cache `suggestCache`, a JS `Map` modelled as an association
list with unique keys. -/
abbrev CacheMap := List (String × CacheEntry)

/-- `Map.prototype.get`. -/
def mapGet (m : CacheMap) (k : String) : Option CacheEntry :=
  match m with
  | [] => none
  | p :: ps => if p.1 = k then some p.2 else mapGet ps k

/-- `Map.prototype.set`: replaces the binding in place when the key is
present, appends it otherwise. -/
def mapSet (m : CacheMap) (k : String) (v : CacheEntry) : CacheMap :=
  match m with
  | [] => [(k, v)]
  | p :: ps => if p.1 = k then (k, v) :: ps else p :: mapSet ps k v

/-- `Map.prototype.delete`. -/
def mapDelete (m : CacheMap) (k : String) : CacheMap :=
  m.filter (fun p => p.1 ≠ k)

/-- `SUGGEST_TTL_MS = 60_000` from server.js. -/
def SUGGEST_TTL_MS : Nat := 60000

/-- `cacheGet` from server.js: a missing entry yields `null`; an entry read
after its expiry time is deleted and yields `null`; otherwise the stored data
is returned.  The second component is the cache after the read. -/
def cacheGet (now : Nat) (m : CacheMap) (key : String) :
    Option (List Suggestion) × CacheMap :=
  match mapGet m key with
  | none => (none, m)
  | some v => if now > v.exp then (none, mapDelete m key) else (some v.data, m)

/-- `cacheSet` from server.js: stores the data with expiry `now + SUGGEST_TTL_MS`. -/
def cacheSet (now : Nat) (m : CacheMap) (key : String) (data : List Suggestion) : CacheMap :=
  mapSet m key { exp := now + SUGGEST_TTL_MS, data := data }

/-- Outcome of a single axios call made with `validateStatus: () => true`: it
resolves with any HTTP status, rejects with code ECONNABORTED on timeout, or
rejects with some other error. -/
inductive Axios (α : Type) : Type where
  | ok (status : Nat) (data : α)
  | timeout
  | netError

/-- Body of an upstream geocoding response as read by the handlers:
`response.data?.features` may be absent. -/
structure GeoData where
  features : Option (List UpFeature)

/-- Response of the suggestions handler: a JSON list (status 200) or
`res.status(s).json(\x7b error \x7d)`. -/
inductive SuggestResp : Type where
  | list (payload : List Suggestion)
  | error (status : Nat) (msg : String)

/-- Result of one run of the suggestions handler: the response, the cache it
leaves behind, and how many upstream calls it performed. -/
structure SuggestOut where
  resp : SuggestResp
  cache : CacheMap
  upstreamCalls : Nat

/-- `defaultProximity = [-4.0083, 5.3097]` (Abidjan) from the suggestions
handler, as reduced fractions. -/
def defaultProximity : ℚ × ℚ :=
  (⟨-40083, 10000, by decide, by decide⟩, ⟨53097, 10000, by decide, by decide⟩)

/-- The cache key `query.toLowerCase() + bar + prox[0].toFixed(3) + comma +
prox[1].toFixed(3)` built by the suggestions handler (query already trimmed). -/
def suggestKey (query : String) (prox : ℚ × ℚ) : String :=
  jsToLower query ++ "|" ++ toFixed3 prox.1 ++ "," ++ toFixed3 prox.2

/-- The coercion `query || ""` applied before `.trim()`. -/
def jsOrEmptyString (v : JVal) : JVal :=
  if v.truthy then v else .str ""

/-- The POST /api/suggestions handler.  `query` and `proximity` come from the
request body; `upstream` is the outcome the single axios call would have if
performed.  A truthy non-string `query` makes `.trim()` throw, which the catch
block answers with status 500. -/
def handleSuggestions (now : Nat) (cache : CacheMap) (query proximity : JVal)
    (upstream : Axios GeoData) : SuggestOut :=
  match jsOrEmptyString query with
  | .str s =>
    let q := jsTrim s
    if q.length < 2 then
      { resp := .list [], cache := cache, upstreamCalls := 0 }
    else
      let prox := (finitePair proximity).getD defaultProximity
      let key := suggestKey q prox
      match cacheGet now cache key with
      | (some cached, cache1) =>
        { resp := .list cached, cache := cache1, upstreamCalls := 0 }
      | (none, cache1) =>
        match upstream with
        | .ok status data =>
          if status ≥ 400 then
            { resp := .error 502 "Erreur côté Mapbox (suggestions).",
              cache := cache1, upstreamCalls := 1 }
          else
            let suggestions := (data.features.getD []).map reduceFeature
            { resp := .list suggestions,
              cache := cacheSet now cache1 key suggestions, upstreamCalls := 1 }
        | .timeout =>
          { resp := .error 500 "Erreur serveur lors de la recherche de suggestions.",
            cache := cache1, upstreamCalls := 1 }
        | .netError =>
          { resp := .error 500 "Erreur serveur lors de la recherche de suggestions.",
            cache := cache1, upstreamCalls := 1 }
  | _ =>
    { resp := .error 500 "Erreur serveur lors de la recherche de suggestions.",
      cache := cache, upstreamCalls := 0 }

/-- Response of the geocode handler: `res.json(\x7b coordinates \x7d)` or an
error status. -/
inductive GeocodeResp : Type where
  | coords (c : JVal)
  | error (status : Nat) (msg : String)

/-- Result of one run of the geocode handler. -/
structure GeocodeOut where
  resp : GeocodeResp
  upstreamCalls : Nat

/-- The POST /api/geocode handler: `(req.body?.location || "").trim()` must be
non-empty, the single upstream call is translated as for suggestions, zero
features yield 404 and otherwise the first feature's `center` is returned. -/
def handleGeocode (location : JVal) (upstream : Axios GeoData) : GeocodeOut :=
  match jsOrEmptyString location with
  | .str s =>
    let loc := jsTrim s
    if loc = "" then
      { resp := .error 400 "Le nom du lieu est requis.", upstreamCalls := 0 }
    else
      match upstream with
      | .ok status data =>
        if status ≥ 400 then
          { resp := .error 502 "Erreur côté Mapbox (géocodage).", upstreamCalls := 1 }
        else
          match data.features.getD [] with
          | [] => { resp := .error 404 ("Lieu non trouvé pour \"" ++ loc ++ "\"."), upstreamCalls := 1 }
          | f :: _ => { resp := .coords f.center, upstreamCalls := 1 }
      | .timeout =>
        { resp := .error 500 "Erreur serveur lors du géocodage.", upstreamCalls := 1 }
      | .netError =>
        { resp := .error 500 "Erreur serveur lors du géocodage.", upstreamCalls := 1 }
  | _ =>
    { resp := .error 500 "Erreur serveur lors du géocodage.", upstreamCalls := 0 }

/-- One upstream directions route: the handler reads `distance`, `duration`
and `geometry` of the first one. -/
structure UpRoute where
  distance : JVal
  duration : JVal
  geometry : JVal

/-- Body of an upstream directions response as read by the handler:
`response.data?.routes` may be absent. -/
structure DirData where
  routes : Option (List UpRoute)

/-- The GeoJSON Feature assembled by the route handler:
`type: "Feature"`, `properties: \x7b distance, duration \x7d` and the first
route's geometry. -/
structure RouteFeature where
  ftype : String
  prop_distance : JVal
  prop_duration : JVal
  geometry : JVal

/-- Response of the route handler: `res.json(\x7b distance, duration, feature \x7d)`
or an error status. -/
inductive RouteResp : Type where
  | ok (distance duration : JVal) (feature : RouteFeature)
  | error (status : Nat) (msg : String)

/-- Result of one run of the route handler. -/
structure RouteOut where
  resp : RouteResp
  upstreamCalls : Nat

/-- The POST /api/route handler: both points must pass `validPoint` before the
single upstream call; zero routes yield 404, otherwise the first route's
distance, duration and geometry are returned together with the assembled
Feature. -/
def handleRoute (start endPoint : JVal) (upstream : Axios DirData) : RouteOut :=
  if validPoint start && validPoint endPoint then
    match upstream with
    | .ok status data =>
      if status ≥ 400 then
        { resp := .error 502 "Erreur côté Mapbox (routage).", upstreamCalls := 1 }
      else
        match data.routes.getD [] with
        | [] =>
          { resp := .error 404 "Aucun itinéraire trouvé entre les points spécifiés.",
            upstreamCalls := 1 }
        | r :: _ =>
          { resp := .ok r.distance r.duration
              { ftype := "Feature", prop_distance := r.distance,
                prop_duration := r.duration, geometry := r.geometry },
            upstreamCalls := 1 }
    | .timeout =>
      { resp := .error 500 "Erreur serveur lors du calcul de l\x27itinéraire.",
        upstreamCalls := 1 }
    | .netError =>
      { resp := .error 500 "Erreur serveur lors du calcul de l\x27itinéraire.",
        upstreamCalls := 1 }
  else
    { resp := .error 400 "Les coordonnées de départ et d\x27arrivée sont requises sous forme [lon, lat].",
      upstreamCalls := 0 }

/-- The JSON object a `RouteFeature` is serialised to. -/
def RouteFeature.toJVal (f : RouteFeature) : JVal :=
  .obj [("type", .str f.ftype),
        ("properties", .obj [("distance", f.prop_distance), ("duration", f.prop_duration)]),
        ("geometry", f.geometry)]

/-- The JSON body sent for a route handler response: on success exactly the
keys `distance`, `duration` and `feature`. -/
def routeRespBody : RouteResp → List (String × JVal)
  | .ok d u f => [("distance", d), ("duration", u), ("feature", f.toJVal)]
  | .error _ msg => [("error", .str msg)]

/-- JS property access `body[k]` on a JSON object: `undefined` when the key is
absent. -/
def jsField (fields : List (String × JVal)) (k : String) : JVal :=
  match fields with
  | [] => .undef
  | p :: ps => if p.1 = k then p.2 else jsField ps k

/-- Client UI state touched by `handleCalculateRoute` in the final App
revision. -/
structure ClientRouteState where
  startCoords : Option JVal
  endCoords : Option JVal
  isLoading : Bool
  distance : JVal
  routeFeature : Option JVal
  fitBoundsTo : Option (JVal × JVal)
  warned : Bool
  toastError : Bool

/-- `handleCalculateRoute` from the client coordinator (final App revision):
with both coordinates resolved it clears the holders, posts to /api/route,
destructures `distance` and `geometry` from the response body, stores the
distance, stores a fresh Feature object built around `geometry` in the
routeFeature holder and fits the viewport over both points; on a failed
request it shows the error toast; `isLoading` is cleared in `finally`.
`response = some body` models a fulfilled POST, `none` a rejected one. -/
def handleCalculateRoute (st : ClientRouteState)
    (response : Option (List (String × JVal))) : ClientRouteState :=
  match st.startCoords, st.endCoords with
  | some sc, some ec =>
    match response with
    | some body =>
      let routeDistance := jsField body "distance"
      let geometry := jsField body "geometry"
      { st with
        isLoading := false
        distance := routeDistance
        routeFeature := some (.obj [("type", .str "Feature"),
                                    ("properties", .obj []),
                                    ("geometry", geometry)])
        fitBoundsTo := some (sc, ec) }
    | none =>
      { st with isLoading := false, routeFeature := none, toastError := true }
  | _, _ => { st with warned := true }

/-- Client coordinator state for one address field.  The start and end
suggestion effects of the final App revision are symmetric; controller
generations number the AbortController instances stored in the field's ref. -/
structure FieldState where
  nextId : Nat
  current : Option Nat
  aborted : List Nat
  issued : List Nat
  suggestions : List Suggestion
  lastIssued : Option Nat

/-- Events of one field's suggestion pipeline. -/
inductive FieldEvent : Type where
  /-- the effect runs with trimmed text of length at least 2, the field
  focused and no resolved coordinates: the previous controller is aborted,
  a fresh one is created and the fetch is issued with its signal -/
  | issue
  /-- the effect runs in a branch that only clears the list (short text, blur
  or resolved coordinates); the cleanup of the previous run has aborted the
  previous controller -/
  | clear
  /-- the axios promise of request `i` settles; `some data` models a
  fulfilled response, `none` a non-cancellation error.  axios rejects an
  aborted request with CanceledError, which the catch clause returns on
  without touching state -/
  | settle (i : Nat) (result : Option (List Suggestion))

/-- Ids aborted once the controller held in the ref has been aborted. -/
def abortCurrent (s : FieldState) : List Nat :=
  match s.current with
  | some i => i :: s.aborted
  | none => s.aborted

/-- One step of the field pipeline, following the suggestions useEffect of the
final App revision. -/
def fieldStep (s : FieldState) : FieldEvent → FieldState
  | .issue =>
    { nextId := s.nextId + 1
      current := some s.nextId
      aborted := abortCurrent s
      issued := s.nextId :: s.issued
      suggestions := s.suggestions
      lastIssued := some s.nextId }
  | .clear =>
    { s with aborted := abortCurrent s, suggestions := [] }
  | .settle i result =>
    if i ∈ s.aborted then s
    else { s with suggestions := result.getD [] }

/-- The field before any effect has run. -/
def initField : FieldState :=
  { nextId := 0, current := none, aborted := [], issued := [],
    suggestions := [], lastIssued := none }

/-- The field state after a chronological list of events. -/
def runField (es : List FieldEvent) : FieldState :=
  es.foldl fieldStep initField

/-- Invariant of the field pipeline: ids are bounded by the generation
counter, and an issued request that is not aborted is exactly the one whose
controller sits in the ref — the most recently issued one. -/
structure FieldInv (s : FieldState) : Prop where
  issued_lt : ∀ i ∈ s.issued, i < s.nextId
  aborted_lt : ∀ i ∈ s.aborted, i < s.nextId
  current_lt : ∀ i, s.current = some i → i < s.nextId
  live_is_current : ∀ i ∈ s.issued, i ∉ s.aborted →
    s.current = some i ∧ s.lastIssued = some i

/-- The rate-limit window length `windowMs: 10 * 1000` configured on
/api/suggestions. -/
def rlWindowMs : Nat := 10000

/-- The rate-limit ceiling `max: 30` configured on /api/suggestions. -/
def rlMax : Nat := 30

/-- Per-client-address counter of the limiter. -/
structure RateLimitWindow where
  count : Nat
  windowStart : Nat
  deriving DecidableEq

/-- Modelled from the spec: the express-rate-limit middleware is a third-party
dependency whose algorithm is not part of this repository; server.js only
configures it (`windowMs: 10 * 1000, max: 30`).  The spec describes it as a
per-client-address fixed window: "per-client-address counter
`(count, windowStart)` with a fixed window length (10s) and ceiling
(30 requests); reset when the window elapses".  One request at time `now`
returns the new window and whether the request is admitted. -/
def rateLimitStep (now : Nat) (w : Option RateLimitWindow) :
    RateLimitWindow × Bool :=
  match w with
  | none => ({ count := 1, windowStart := now }, true)
  | some v =>
    if v.windowStart + rlWindowMs ≤ now then
      ({ count := 1, windowStart := now }, true)
    else if v.count < rlMax then
      ({ count := v.count + 1, windowStart := v.windowStart }, true)
    else (v, false)

/-- Run the limiter over a chronological list of request times, recording the
admission verdicts. -/
def runLimiter (times : List Nat) (w : Option RateLimitWindow) :
    Option RateLimitWindow × List Bool :=
  match times with
  | [] => (w, [])
  | t :: ts =>
    let first := rateLimitStep t w
    let rest := runLimiter ts (some first.1)
    (rest.1, first.2 :: rest.2)

theorem jsOrEmptyString_str (s : String) : jsOrEmptyString (.str s) = .str s := by
  by_cases h : s = ""
  · subst h; rfl
  · simp [jsOrEmptyString, JVal.truthy, h]

theorem mapGet_mapSet_self (m : CacheMap) (k : String) (v : CacheEntry) :
    mapGet (mapSet m k v) k = some v := by
  induction m with
  | nil => simp [mapSet, mapGet]
  | cons p ps ih =>
    by_cases h : p.1 = k
    · simp [mapSet, mapGet, h]
    · simp [mapSet, mapGet, h, ih]

theorem mapGet_mapDelete_self (m : CacheMap) (k : String) :
    mapGet (mapDelete m k) k = none := by
  induction m with
  | nil => rfl
  | cons p ps ih =>
    by_cases h : p.1 = k
    · simpa [mapDelete, List.filter_cons, h] using ih
    · simpa [mapDelete, List.filter_cons, h, mapGet] using ih

/-- C5: a suggestions request whose query text trims to fewer than two
characters (a missing or empty query included) is answered with the empty
list as a success, with no upstream call and the cache untouched. -/
theorem suggestions_short_query (now : Nat) (cache : CacheMap) (query proximity : JVal)
    (upstream : Axios GeoData)
    (h : query = .null ∨ query = .undef ∨ ∃ s, query = .str s ∧ (jsTrim s).length < 2) :
    handleSuggestions now cache query proximity upstream =
      { resp := .list [], cache := cache, upstreamCalls := 0 } := by
  rcases h with h | h | ⟨s, rfl, hs⟩
  · subst h; rfl
  · subst h; rfl
  · simp [handleSuggestions, jsOrEmptyString_str, hs]

theorem suggestions_short_query_witness :
    handleSuggestions 5 [] (.str " a ") .undef .netError =
      { resp := .list [], cache := [], upstreamCalls := 0 } :=
  suggestions_short_query 5 [] (.str " a ") .undef .netError
    (Or.inr (Or.inr ⟨" a ", rfl, by decide⟩))

/-- C6: a route request in which either point fails `validPoint` (wrong arity,
not an array, or a non-finite component) is rejected with status 400 before
any upstream call. -/
theorem route_invalid_point (start endPoint : JVal) (upstream : Axios DirData)
    (h : validPoint start = false ∨ validPoint endPoint = false) :
    handleRoute start endPoint upstream =
      { resp := .error 400 "Les coordonnées de départ et d\x27arrivée sont requises sous forme [lon, lat].",
        upstreamCalls := 0 } := by
  rcases h with h | h <;> simp [handleRoute, h]

theorem route_invalid_point_witness :
    handleRoute (.arr [.num 1]) (.arr [.num 1, .num 2]) .timeout =
      { resp := .error 400 "Les coordonnées de départ et d\x27arrivée sont requises sous forme [lon, lat].",
        upstreamCalls := 0 } :=
  route_invalid_point (.arr [.num 1]) (.arr [.num 1, .num 2]) .timeout (Or.inl rfl)

/-- C7: with two valid points and a successful upstream response, zero routes
yield status 404 and at least one route yields the first route's distance and
duration verbatim together with a Feature whose properties are that distance
and duration and whose geometry is the first route's geometry verbatim. -/
theorem route_result (start endPoint : JVal) (status : Nat) (data : DirData)
    (hs : validPoint start = true) (he : validPoint endPoint = true)
    (hok : status < 400) :
    (data.routes.getD [] = [] →
      handleRoute start endPoint (.ok status data) =
        { resp := .error 404 "Aucun itinéraire trouvé entre les points spécifiés.",
          upstreamCalls := 1 })
    ∧ (∀ r rs, data.routes.getD [] = r :: rs →
      handleRoute start endPoint (.ok status data) =
        { resp := .ok r.distance r.duration
            { ftype := "Feature", prop_distance := r.distance,
              prop_duration := r.duration, geometry := r.geometry },
          upstreamCalls := 1 }) := by
  have hnot : ¬ (status ≥ 400) := Nat.not_le.mpr hok
  constructor
  · intro h
    simp [handleRoute, hs, he, hnot, h]
  · intro r rs h
    simp [handleRoute, hs, he, hnot, h]

theorem route_result_witness :
    handleRoute (.arr [.num 1, .num 2]) (.arr [.num 3, .num 4]) (.ok 200 { routes := some [] }) =
      { resp := .error 404 "Aucun itinéraire trouvé entre les points spécifiés.",
        upstreamCalls := 1 }
    ∧ handleRoute (.arr [.num 1, .num 2]) (.arr [.num 3, .num 4])
        (.ok 200 { routes := some [{ distance := .num 7, duration := .num 8, geometry := .str "g" }] }) =
      { resp := .ok (.num 7) (.num 8)
          { ftype := "Feature", prop_distance := .num 7, prop_duration := .num 8, geometry := .str "g" },
        upstreamCalls := 1 } :=
  ⟨(route_result (.arr [.num 1, .num 2]) (.arr [.num 3, .num 4]) 200 { routes := some [] }
      rfl rfl (by decide)).1 rfl,
   (route_result (.arr [.num 1, .num 2]) (.arr [.num 3, .num 4]) 200
      { routes := some [{ distance := .num 7, duration := .num 8, geometry := .str "g" }] }
      rfl rfl (by decide)).2
     { distance := .num 7, duration := .num 8, geometry := .str "g" } [] rfl⟩

/-- C10: a proximity that is absent or malformed (not a two-element array of
finite numbers) is silently replaced by the fixed default reference point, so
the request behaves exactly like one with no proximity at all and its cache
key ends in the default point rounded to three decimals. -/
theorem suggestions_proximity_default (proximity : JVal)
    (h : finitePair proximity = none) :
    (∀ (now : Nat) (cache : CacheMap) (query : JVal) (upstream : Axios GeoData),
      handleSuggestions now cache query proximity upstream =
        handleSuggestions now cache query .undef upstream)
    ∧ ∀ q : String,
        suggestKey q ((finitePair proximity).getD defaultProximity) =
          jsToLower q ++ "|-4.008,5.310" := by
  constructor
  · intro now cache query upstream
    simp only [handleSuggestions, h]
    rfl
  · intro q
    rw [h]
    have h1 : toFixed3 defaultProximity.1 = "-4.008" := by decide
    have h2 : toFixed3 defaultProximity.2 = "5.310" := by decide
    show suggestKey q defaultProximity = _
    rw [suggestKey, h1, h2, String.append_assoc, String.append_assoc, String.append_assoc]
    congr 1

theorem suggestions_proximity_default_witness :
    handleSuggestions 0 [] (.str "Ab") (.arr [.num 1]) .netError =
      handleSuggestions 0 [] (.str "Ab") .undef .netError
    ∧ suggestKey "Ab" ((finitePair (.arr [.num 1])).getD defaultProximity) =
        jsToLower "Ab" ++ "|-4.008,5.310" :=
  ⟨(suggestions_proximity_default (.arr [.num 1]) rfl).1 0 [] (.str "Ab") .netError,
   (suggestions_proximity_default (.arr [.num 1]) rfl).2 "Ab"⟩

/-- C1: a suggestions query whose cache key was stored by a successful fetch
less than 60 seconds earlier is answered from the cache with no upstream
call; on a true cache miss a successful upstream call returns the reduced
list and stores it under that key with a 60-second time-to-live. -/
theorem suggestions_cache_behaviour :
    (∀ (now t0 : Nat) (cache : CacheMap) (s : String) (proximity : JVal)
       (upstream : Axios GeoData) (data : List Suggestion),
       2 ≤ (jsTrim s).length →
       mapGet cache (suggestKey (jsTrim s) ((finitePair proximity).getD defaultProximity)) =
         some { exp := t0 + SUGGEST_TTL_MS, data := data } →
       now < t0 + SUGGEST_TTL_MS →
       handleSuggestions now cache (.str s) proximity upstream =
         { resp := .list data, cache := cache, upstreamCalls := 0 })
    ∧ (∀ (now : Nat) (cache : CacheMap) (s : String) (proximity : JVal)
        (status : Nat) (gdata : GeoData),
        2 ≤ (jsTrim s).length →
        mapGet cache (suggestKey (jsTrim s) ((finitePair proximity).getD defaultProximity)) = none →
        status < 400 →
        handleSuggestions now cache (.str s) proximity (.ok status gdata) =
          { resp := .list ((gdata.features.getD []).map reduceFeature),
            cache := cacheSet now cache
              (suggestKey (jsTrim s) ((finitePair proximity).getD defaultProximity))
              ((gdata.features.getD []).map reduceFeature),
            upstreamCalls := 1 }
        ∧ mapGet (handleSuggestions now cache (.str s) proximity (.ok status gdata)).cache
            (suggestKey (jsTrim s) ((finitePair proximity).getD defaultProximity)) =
          some { exp := now + SUGGEST_TTL_MS,
                 data := (gdata.features.getD []).map reduceFeature }) := by
  constructor
  · intro now t0 cache s proximity upstream data hlen hget hnow
    have hnlt : ¬ ((jsTrim s).length < 2) := Nat.not_lt.mpr hlen
    have hcg : cacheGet now cache
        (suggestKey (jsTrim s) ((finitePair proximity).getD defaultProximity)) =
        (some data, cache) := by
      unfold cacheGet
      rw [hget]
      simp only
      rw [if_neg (by simp; omega)]
    simp [handleSuggestions, jsOrEmptyString_str, hnlt, hcg]
  · intro now cache s proximity status gdata hlen hget hok
    have hnlt : ¬ ((jsTrim s).length < 2) := Nat.not_lt.mpr hlen
    have hnot : ¬ (status ≥ 400) := Nat.not_le.mpr hok
    have hcg : cacheGet now cache
        (suggestKey (jsTrim s) ((finitePair proximity).getD defaultProximity)) =
        (none, cache) := by
      unfold cacheGet
      rw [hget]
    have hmain :
        handleSuggestions now cache (.str s) proximity (.ok status gdata) =
          { resp := .list ((gdata.features.getD []).map reduceFeature),
            cache := cacheSet now cache
              (suggestKey (jsTrim s) ((finitePair proximity).getD defaultProximity))
              ((gdata.features.getD []).map reduceFeature),
            upstreamCalls := 1 } := by
      simp [handleSuggestions, jsOrEmptyString_str, hnlt, hcg, hnot]
    refine ⟨hmain, ?_⟩
    rw [hmain]
    exact mapGet_mapSet_self _ _ _

def demoSuggestion : Suggestion :=
  { id := "p1", place_name := "Abidjan", center := .arr [.num 1, .num 2] }

def demoCache : CacheMap :=
  [("ab|-4.008,5.310", { exp := 60000, data := [demoSuggestion] })]

def demoGeoData : GeoData :=
  { features := some [{ id := "p1", place_name := "Abidjan",
                        center := .arr [.num 1, .num 2], rest := [("bbox", .null)] }] }

theorem suggestions_cache_behaviour_witness :
    (handleSuggestions 100 demoCache (.str "Ab") .undef .netError =
      { resp := .list [demoSuggestion], cache := demoCache, upstreamCalls := 0 })
    ∧ (handleSuggestions 7 [] (.str "Ab") .undef (.ok 200 demoGeoData) =
        { resp := .list [demoSuggestion],
          cache := cacheSet 7 []
            (suggestKey (jsTrim "Ab") ((finitePair .undef).getD defaultProximity))
            [demoSuggestion],
          upstreamCalls := 1 }) :=
  ⟨suggestions_cache_behaviour.1 100 0 demoCache "Ab" .undef .netError [demoSuggestion]
     (by decide) rfl (by decide),
   (suggestions_cache_behaviour.2 7 [] "Ab" .undef 200 demoGeoData
     (by decide) rfl (by decide)).1⟩

/-- C2: a cache entry read after its TTL has elapsed is treated as absent:
the lookup yields nothing, the whole request behaves exactly as if the entry
had been deleted beforehand, and a fresh upstream call is made. -/
theorem suggestions_ttl_expired (now : Nat) (cache : CacheMap) (s : String)
    (proximity : JVal) (upstream : Axios GeoData) (v : CacheEntry)
    (hlen : 2 ≤ (jsTrim s).length)
    (hget : mapGet cache
      (suggestKey (jsTrim s) ((finitePair proximity).getD defaultProximity)) = some v)
    (hexp : v.exp < now) :
    (cacheGet now cache
      (suggestKey (jsTrim s) ((finitePair proximity).getD defaultProximity))).1 = none
    ∧ handleSuggestions now cache (.str s) proximity upstream =
        handleSuggestions now
          (mapDelete cache (suggestKey (jsTrim s) ((finitePair proximity).getD defaultProximity)))
          (.str s) proximity upstream
    ∧ (handleSuggestions now cache (.str s) proximity upstream).upstreamCalls = 1 := by
  have hnlt : ¬ ((jsTrim s).length < 2) := Nat.not_lt.mpr hlen
  have hcg : cacheGet now cache
      (suggestKey (jsTrim s) ((finitePair proximity).getD defaultProximity)) =
      (none, mapDelete cache (suggestKey (jsTrim s) ((finitePair proximity).getD defaultProximity))) := by
    unfold cacheGet
    rw [hget]
    simp only
    rw [if_pos hexp]
  have hcg2 : cacheGet now
      (mapDelete cache (suggestKey (jsTrim s) ((finitePair proximity).getD defaultProximity)))
      (suggestKey (jsTrim s) ((finitePair proximity).getD defaultProximity)) =
      (none, mapDelete cache (suggestKey (jsTrim s) ((finitePair proximity).getD defaultProximity))) := by
    unfold cacheGet
    rw [mapGet_mapDelete_self]
  refine ⟨by rw [hcg], ?_, ?_⟩
  · simp [handleSuggestions, jsOrEmptyString_str, hnlt, hcg, hcg2]
  · simp only [handleSuggestions, jsOrEmptyString_str, hnlt, if_neg hnlt, hcg]
    cases upstream with
    | ok status data => by_cases h : status ≥ 400 <;> simp [h]
    | timeout => rfl
    | netError => rfl

def demoStaleCache : CacheMap :=
  [("ab|-4.008,5.310", { exp := 50, data := [demoSuggestion] })]

theorem suggestions_ttl_expired_witness :
    (cacheGet 100 demoStaleCache
      (suggestKey (jsTrim "Ab") ((finitePair .undef).getD defaultProximity))).1 = none
    ∧ handleSuggestions 100 demoStaleCache (.str "Ab") .undef .timeout =
        handleSuggestions 100
          (mapDelete demoStaleCache
            (suggestKey (jsTrim "Ab") ((finitePair .undef).getD defaultProximity)))
          (.str "Ab") .undef .timeout
    ∧ (handleSuggestions 100 demoStaleCache (.str "Ab") .undef .timeout).upstreamCalls = 1 :=
  suggestions_ttl_expired 100 demoStaleCache "Ab" .undef .timeout
    { exp := 50, data := [demoSuggestion] } (by decide) rfl (by decide)

/-- C8: every proxy operation performs at most one upstream attempt (no
retry anywhere); whenever the attempt is made, an upstream HTTP status of at
least 400 is reported as status 502 and an upstream timeout as the generic
status-500 server error, immediately. -/
theorem upstream_error_translation :
    (∀ (now : Nat) (cache : CacheMap) (query proximity : JVal) (upstream : Axios GeoData),
      (handleSuggestions now cache query proximity upstream).upstreamCalls ≤ 1)
    ∧ (∀ (location : JVal) (upstream : Axios GeoData),
      (handleGeocode location upstream).upstreamCalls ≤ 1)
    ∧ (∀ (start endPoint : JVal) (upstream : Axios DirData),
      (handleRoute start endPoint upstream).upstreamCalls ≤ 1)
    ∧ (∀ (now : Nat) (cache : CacheMap) (query proximity : JVal) (status : Nat) (data : GeoData),
      400 ≤ status →
      (handleSuggestions now cache query proximity (.ok status data)).upstreamCalls = 1 →
      (handleSuggestions now cache query proximity (.ok status data)).resp =
        .error 502 "Erreur côté Mapbox (suggestions).")
    ∧ (∀ (now : Nat) (cache : CacheMap) (query proximity : JVal),
      (handleSuggestions now cache query proximity .timeout).upstreamCalls = 1 →
      (handleSuggestions now cache query proximity .timeout).resp =
        .error 500 "Erreur serveur lors de la recherche de suggestions.")
    ∧ (∀ (location : JVal) (status : Nat) (data : GeoData),
      400 ≤ status →
      (handleGeocode location (.ok status data)).upstreamCalls = 1 →
      (handleGeocode location (.ok status data)).resp =
        .error 502 "Erreur côté Mapbox (géocodage).")
    ∧ (∀ (location : JVal),
      (handleGeocode location .timeout).upstreamCalls = 1 →
      (handleGeocode location .timeout).resp = .error 500 "Erreur serveur lors du géocodage.")
    ∧ (∀ (start endPoint : JVal) (status : Nat) (data : DirData),
      400 ≤ status →
      (handleRoute start endPoint (.ok status data)).upstreamCalls = 1 →
      (handleRoute start endPoint (.ok status data)).resp =
        .error 502 "Erreur côté Mapbox (routage).")
    ∧ (∀ (start endPoint : JVal),
      (handleRoute start endPoint .timeout).upstreamCalls = 1 →
      (handleRoute start endPoint .timeout).resp =
        .error 500 "Erreur serveur lors du calcul de l\x27itinéraire.") := by
  refine ⟨?_, ?_, ?_, ?_, ?_, ?_, ?_, ?_, ?_⟩
  · intro now cache query proximity upstream
    unfold handleSuggestions
    dsimp only
    repeat' split
    all_goals simp
  · intro location upstream
    unfold handleGeocode
    dsimp only
    repeat' split
    all_goals simp
  · intro start endPoint upstream
    unfold handleRoute
    repeat' split
    all_goals simp
  · intro now cache query proximity status data hst
    unfold handleSuggestions
    repeat' split <;> simp_all
  · intro now cache query proximity
    unfold handleSuggestions
    repeat' split <;> simp_all
  · intro location status data hst
    unfold handleGeocode
    repeat' split <;> simp_all
  · intro location
    unfold handleGeocode
    repeat' split <;> simp_all
  · intro start endPoint status data hst
    unfold handleRoute
    repeat' split <;> simp_all
  · intro start endPoint
    unfold handleRoute
    repeat' split <;> simp_all

theorem upstream_error_translation_witness :
    (handleSuggestions 0 [] (.str "Ab") .undef .netError).upstreamCalls ≤ 1
    ∧ (handleGeocode (.str "Abidjan") .netError).upstreamCalls ≤ 1
    ∧ (handleRoute (.arr [.num 1, .num 2]) (.arr [.num 3, .num 4]) .netError).upstreamCalls ≤ 1
    ∧ (handleSuggestions 0 [] (.str "Ab") .undef (.ok 500 demoGeoData)).resp =
        .error 502 "Erreur côté Mapbox (suggestions)."
    ∧ (handleSuggestions 0 [] (.str "Ab") .undef .timeout).resp =
        .error 500 "Erreur serveur lors de la recherche de suggestions."
    ∧ (handleGeocode (.str "Abidjan") (.ok 500 demoGeoData)).resp =
        .error 502 "Erreur côté Mapbox (géocodage)."
    ∧ (handleGeocode (.str "Abidjan") .timeout).resp =
        .error 500 "Erreur serveur lors du géocodage."
    ∧ (handleRoute (.arr [.num 1, .num 2]) (.arr [.num 3, .num 4]) (.ok 500 { routes := none })).resp =
        .error 502 "Erreur côté Mapbox (routage)."
    ∧ (handleRoute (.arr [.num 1, .num 2]) (.arr [.num 3, .num 4]) .timeout).resp =
        .error 500 "Erreur serveur lors du calcul de l\x27itinéraire." :=
  ⟨upstream_error_translation.1 0 [] (.str "Ab") .undef .netError,
   upstream_error_translation.2.1 (.str "Abidjan") .netError,
   upstream_error_translation.2.2.1 (.arr [.num 1, .num 2]) (.arr [.num 3, .num 4]) .netError,
   upstream_error_translation.2.2.2.1 0 [] (.str "Ab") .undef 500 demoGeoData (by decide) rfl,
   upstream_error_translation.2.2.2.2.1 0 [] (.str "Ab") .undef rfl,
   upstream_error_translation.2.2.2.2.2.1 (.str "Abidjan") 500 demoGeoData (by decide) rfl,
   upstream_error_translation.2.2.2.2.2.2.1 (.str "Abidjan") rfl,
   upstream_error_translation.2.2.2.2.2.2.2.1 (.arr [.num 1, .num 2]) (.arr [.num 3, .num 4])
     500 { routes := none } (by decide) rfl,
   upstream_error_translation.2.2.2.2.2.2.2.2 (.arr [.num 1, .num 2]) (.arr [.num 3, .num 4]) rfl⟩

theorem runLimiter_under_ceiling (ts : List Nat) (c t0 : Nat)
    (hw : ∀ x ∈ ts, x < t0 + rlWindowMs) (hc : c + ts.length ≤ rlMax) :
    runLimiter ts (some { count := c, windowStart := t0 }) =
      (some { count := c + ts.length, windowStart := t0 },
       List.replicate ts.length true) := by
  induction ts generalizing c with
  | nil => simp [runLimiter]
  | cons t ts ih =>
    have hlt : t < t0 + rlWindowMs := hw t (by simp)
    have hnotle : ¬ (t0 + rlWindowMs ≤ t) := by omega
    have hcount : c < rlMax := by
      simp only [List.length_cons] at hc
      omega
    have hrest := ih (c + 1) (fun x hx => hw x (by simp [hx])) (by
      simp only [List.length_cons] at hc
      omega)
    simp only [runLimiter, rateLimitStep, if_neg hnotle, if_pos hcount, hrest,
      List.length_cons, List.replicate_succ, Prod.mk.injEq]
    refine ⟨?_, trivial⟩
    have hadd : c + 1 + ts.length = c + (ts.length + 1) := by omega
    rw [hadd]

/-- C3: starting from a fresh window, 30 suggestion requests from one client
address within the 10-second window opened by the first one are all admitted,
a 31st request inside the window is rejected, and once the window has elapsed
a further request is admitted again. -/
theorem rate_limit_window (t0 : Nat) (ts : List Nat) (t31 tNext : Nat)
    (hlen : ts.length = 30) (hhead : ts.head? = some t0)
    (hw : ∀ x ∈ ts, t0 ≤ x ∧ x < t0 + rlWindowMs)
    (h31 : t31 < t0 + rlWindowMs)
    (hnext : t0 + rlWindowMs ≤ tNext) :
    (runLimiter ts none).2 = List.replicate 30 true
    ∧ (rateLimitStep t31 (runLimiter ts none).1).2 = false
    ∧ (rateLimitStep tNext (some (rateLimitStep t31 (runLimiter ts none).1).1)).2 = true := by
  cases ts with
  | nil => simp at hlen
  | cons thead rest =>
    have ht : thead = t0 := by simpa using hhead
    subst thead
    have hrestlen : rest.length = 29 := by simpa using hlen
    have hrun : runLimiter rest (some { count := 1, windowStart := t0 }) =
        (some { count := 1 + rest.length, windowStart := t0 },
         List.replicate rest.length true) :=
      runLimiter_under_ceiling rest 1 t0
        (fun x hx => (hw x (by simp [hx])).2)
        (by rw [hrestlen]; decide)
    have h30 : (1 : Nat) + rest.length = 30 := by omega
    have hfull : runLimiter (t0 :: rest) none =
        (some { count := 30, windowStart := t0 }, List.replicate 30 true) := by
      simp only [runLimiter, rateLimitStep, hrun, hrestlen]
      try rfl
    rw [hfull]
    have hnotle : ¬ (t0 + rlWindowMs ≤ t31) := by omega
    have hstep31 : rateLimitStep t31 (some { count := 30, windowStart := t0 }) =
        ({ count := 30, windowStart := t0 }, false) := by
      simp [rateLimitStep, hnotle, rlMax]
    refine ⟨rfl, by rw [hstep31], ?_⟩
    rw [hstep31]
    simp [rateLimitStep, hnext]

theorem rate_limit_window_witness :
    (runLimiter (List.replicate 30 0) none).2 = List.replicate 30 true
    ∧ (rateLimitStep 1 (runLimiter (List.replicate 30 0) none).1).2 = false
    ∧ (rateLimitStep 10000
        (some (rateLimitStep 1 (runLimiter (List.replicate 30 0) none).1).1)).2 = true :=
  rate_limit_window 0 (List.replicate 30 0) 1 10000 (by decide) (by decide)
    (by decide) (by decide) (by decide)

theorem fieldInv_init : FieldInv initField := by
  refine ⟨?_, ?_, ?_, ?_⟩ <;> intro i hi <;> simp [initField] at hi

theorem fieldInv_step (s : FieldState) (hs : FieldInv s) (e : FieldEvent) :
    FieldInv (fieldStep s e) := by
  obtain ⟨h1, h2, h3, h4⟩ := hs
  cases e with
  | issue =>
    refine ⟨?_, ?_, ?_, ?_⟩
    · intro i hi
      simp only [fieldStep, List.mem_cons] at hi ⊢
      rcases hi with rfl | hi
      · omega
      · have := h1 i hi
        omega
    · intro i hi
      simp only [fieldStep] at hi ⊢
      unfold abortCurrent at hi
      rcases hcur : s.current with _ | j
      · rw [hcur] at hi
        have := h2 i hi
        omega
      · rw [hcur] at hi
        rcases List.mem_cons.mp hi with rfl | hi
        · have := h3 i hcur
          omega
        · have := h2 i hi
          omega
    · intro i hi
      simp only [fieldStep, Option.some.injEq] at hi ⊢
      omega
    · intro i hi hnab
      simp only [fieldStep, List.mem_cons] at hi hnab ⊢
      rcases hi with rfl | hi
      · exact ⟨rfl, rfl⟩
      · exfalso
        have hnab2 : i ∉ s.aborted := by
          intro hmem
          exact hnab (by unfold abortCurrent; rcases s.current with _ | j <;> simp [hmem])
        have hcur := (h4 i hi hnab2).1
        exact hnab (by unfold abortCurrent; rw [hcur]; exact List.mem_cons_self _ _)
  | clear =>
    refine ⟨?_, ?_, ?_, ?_⟩
    · intro i hi
      simpa [fieldStep] using h1 i (by simpa [fieldStep] using hi)
    · intro i hi
      simp only [fieldStep] at hi ⊢
      unfold abortCurrent at hi
      rcases hcur : s.current with _ | j
      · rw [hcur] at hi
        exact h2 i hi
      · rw [hcur] at hi
        rcases List.mem_cons.mp hi with rfl | hi
        · exact h3 i hcur
        · exact h2 i hi
    · intro i hi
      simp only [fieldStep] at hi
      exact h3 i hi
    · intro i hi hnab
      simp only [fieldStep] at hi hnab ⊢
      exfalso
      have hnab2 : i ∉ s.aborted := by
        intro hmem
        exact hnab (by unfold abortCurrent; rcases s.current with _ | j <;> simp [hmem])
      have hcur := (h4 i hi hnab2).1
      exact hnab (by unfold abortCurrent; rw [hcur]; exact List.mem_cons_self _ _)
  | settle i r =>
    by_cases hab : i ∈ s.aborted
    · simpa [fieldStep, hab] using ⟨h1, h2, h3, h4⟩
    · refine ⟨?_, ?_, ?_, ?_⟩ <;> simp only [fieldStep, if_neg hab]
      · exact h1
      · exact h2
      · exact h3
      · exact h4

theorem fieldInv_foldl (es : List FieldEvent) (s : FieldState) (hs : FieldInv s) :
    FieldInv (es.foldl fieldStep s) := by
  induction es generalizing s with
  | nil => simpa using hs
  | cons e es ih => exact ih (fieldStep s e) (fieldInv_step s hs e)

theorem fieldInv_run (es : List FieldEvent) : FieldInv (runField es) :=
  fieldInv_foldl es initField fieldInv_init

/-- C4: in the client coordinator, issuing a new suggestion fetch for a field
aborts the controller of the previous in-flight request before the new one is
issued; a settlement of an aborted request leaves the state untouched; and in
any reachable state a settlement of any request other than the most recently
issued one leaves the suggestions list unchanged — only the latest request's
result can reach it. -/
theorem suggestion_fetch_cancellation :
    (∀ (s : FieldState) (j : Nat), s.current = some j →
      j ∈ (fieldStep s .issue).aborted)
    ∧ (∀ (s : FieldState) (i : Nat) (r : Option (List Suggestion)),
      i ∈ s.aborted → fieldStep s (.settle i r) = s)
    ∧ (∀ (es : List FieldEvent) (i : Nat) (r : Option (List Suggestion)),
      i ∈ (runField es).issued → (runField es).lastIssued ≠ some i →
      (fieldStep (runField es) (.settle i r)).suggestions = (runField es).suggestions) := by
  refine ⟨?_, ?_, ?_⟩
  · intro s j hj
    simp only [fieldStep]
    unfold abortCurrent
    rw [hj]
    exact List.mem_cons_self _ _
  · intro s i r hab
    simp [fieldStep, hab]
  · intro es i r hi hlast
    have hinv := fieldInv_run es
    by_cases hab : i ∈ (runField es).aborted
    · simp [fieldStep, hab]
    · exact absurd (hinv.live_is_current i hi hab).2 (fun h => hlast h)

theorem suggestion_fetch_cancellation_witness :
    (0 ∈ (fieldStep (runField [FieldEvent.issue]) .issue).aborted)
    ∧ fieldStep (runField [FieldEvent.issue, FieldEvent.issue]) (.settle 0 (some [demoSuggestion])) =
        runField [FieldEvent.issue, FieldEvent.issue]
    ∧ (fieldStep (runField [FieldEvent.issue, FieldEvent.issue])
        (.settle 0 (some [demoSuggestion]))).suggestions =
        (runField [FieldEvent.issue, FieldEvent.issue]).suggestions :=
  ⟨suggestion_fetch_cancellation.1 (runField [FieldEvent.issue]) 0 rfl,
   suggestion_fetch_cancellation.2.1 (runField [FieldEvent.issue, FieldEvent.issue]) 0
     (some [demoSuggestion]) (by decide),
   suggestion_fetch_cancellation.2.2 [FieldEvent.issue, FieldEvent.issue] 0
     (some [demoSuggestion]) (by decide) (by decide)⟩

def demoStart : JVal :=
  .arr [.num ⟨-201, 50, by decide, by decide⟩, .num ⟨133, 25, by decide, by decide⟩]

def demoEnd : JVal :=
  .arr [.num ⟨-199, 50, by decide, by decide⟩, .num ⟨107, 20, by decide, by decide⟩]

def demoGeometry : JVal :=
  .obj [("type", .str "LineString"),
        ("coordinates", .arr [.arr [.num ⟨-201, 50, by decide, by decide⟩,
                                    .num ⟨133, 25, by decide, by decide⟩],
                              .arr [.num ⟨-199, 50, by decide, by decide⟩,
                                    .num ⟨107, 20, by decide, by decide⟩]])]

def demoDirData : DirData :=
  { routes := some [{ distance := .num 12345, duration := .num 900, geometry := demoGeometry }] }

def demoClientState : ClientRouteState :=
  { startCoords := some demoStart, endCoords := some demoEnd, isLoading := false,
    distance := .null, routeFeature := none, fitBoundsTo := none,
    warned := false, toastError := false }

/-- C9: on the route of the spec's end-to-end scenario the proxy answers with
the first route's geometry carried inside `feature`, the success body has no
top-level `geometry` key, and the client coordinator — which destructures
`geometry` from the body — therefore stores a Feature whose geometry is
`undefined` in its route-geometry holder instead of the returned LineString;
the viewport fit over both points does fire. -/
theorem client_route_geometry_dropped :
    (handleRoute demoStart demoEnd (.ok 200 demoDirData)).resp =
      .ok (.num 12345) (.num 900)
        { ftype := "Feature", prop_distance := .num 12345, prop_duration := .num 900,
          geometry := demoGeometry }
    ∧ jsField (routeRespBody (handleRoute demoStart demoEnd (.ok 200 demoDirData)).resp)
        "geometry" = .undef
    ∧ (handleCalculateRoute demoClientState
        (some (routeRespBody (handleRoute demoStart demoEnd (.ok 200 demoDirData)).resp))).routeFeature =
      some (.obj [("type", .str "Feature"), ("properties", .obj []), ("geometry", .undef)])
    ∧ (handleCalculateRoute demoClientState
        (some (routeRespBody (handleRoute demoStart demoEnd (.ok 200 demoDirData)).resp))).fitBoundsTo =
      some (demoStart, demoEnd)
    ∧ demoGeometry ≠ .undef :=
  ⟨rfl, rfl, rfl, rfl, fun h => by simp only [demoGeometry] at h; exact JVal.noConfusion h⟩
